import Mathlib

/-!
Verification of the VoicePing router presence subsystem.

Shallow embedding of the TypeScript sources:
  src/lib/config.ts      — configuration object built from environment variables
  src/lib/presence.ts    — PresenceManager (Redis-backed online/offline state)
  src/lib/server.ts      — Server (routing, fan-out, web-client bookkeeping)
  src/lib/connection.ts  — Connection (per-socket ping/pong handling)
  the entrypoint         — HTTP handler for POST /api/presence/status
  the extended Server    — getUserFromToken / verifyClient token resolution

The Redis store is modelled as explicit state (string keys with TTLs, and
hashes with the four fields the code ever writes).  JavaScript truthiness of
the string values involved is modelled explicitly.  Results of external
library calls (jwt-simple decode, base64/JSON payload decoding) are passed
as parameters to the embedded control flow that consumes them.
-/

/-- JavaScript truthiness of an optional string value: `undefined`/`null`
and the empty string are falsy, every other string is truthy. -/
def jsTruthyStr (o : Option String) : Bool :=
  match o with
  | none => false
  | some s => !(s == "")

/-- JavaScript `Number(env) || dflt` for an environment variable that is
either unset or holds a string: unset gives `NaN` (falsy), a non-numeric
string gives `NaN` (falsy), `"0"` gives `0` (falsy); all of these fall back
to the default.  A positive decimal string gives its value. -/
def jsNumberOrDefault (envVal : Option String) (dflt : Nat) : Nat :=
  match envVal with
  | none => dflt
  | some s =>
    match s.toNat? with
    | some n => if n = 0 then dflt else n
    | none => dflt

/-- JavaScript `a || b` on optional string values (`b` chosen when `a` is
absent or empty). -/
def jsOr (a b : Option String) : Option String :=
  match a with
  | none => b
  | some s => if s = "" then b else some s

namespace Keys

/-- Modelled from the spec: the key registry module (`./keys`, spec §4.2) is
not under `src/`; `keyPresence(id) = "presence:user:" + id`, which is also
pinned by `presence.ts` itself (`expiredKey.startsWith("presence:user:")`,
`key.split(":")[2]`) and by the repository's PRESENCE_IMPLEMENTATION.md. -/
def forPresence (userId : String) : String :=
  "presence:user:" ++ userId

/-- Modelled from the spec: `keyPresenceMeta(id) = "presence:meta:" + id`
(spec §4.2, confirmed by PRESENCE_IMPLEMENTATION.md's key listing). -/
def forPresenceMeta (userId : String) : String :=
  "presence:meta:" ++ userId

end Keys

/-- The `presence` block of `config.ts`:
`enabled: process.env.PRESENCE_ENABLED !== "false"` and
`ttl: Number(process.env.PRESENCE_TTL) || 360`. -/
structure PresenceConfig where
  enabled : Bool
  ttl : Nat
deriving Repr, DecidableEq

/-- Builds `config.presence` from the two environment variables, as in
`src/lib/config.ts` lines 28-31. -/
def configPresence (envEnabled envTtl : Option String) : PresenceConfig :=
  { enabled := !(envEnabled == some "false")
    ttl := jsNumberOrDefault envTtl 360 }

/-- The module constant `PRESENCE_TTL` of `presence.ts` line 20:
`config.presence ? config.presence.ttl : 60`.  `config.presence` is always
defined in `config.ts`, so the ternary always takes `config.presence.ttl`. -/
def PRESENCE_TTL (envTtl : Option String) : Nat :=
  (configPresence none envTtl).ttl

/-- The module constant `PRESENCE_ENABLED` of `presence.ts` line 21. -/
def PRESENCE_ENABLED (envEnabled : Option String) : Bool :=
  (configPresence envEnabled none).enabled

/-- The fields of a `presence:meta:{id}` hash.  The code only ever writes the
four fields `status`, `lastSeen`, `deviceId`, `role` (`presence.ts`
`setUserOnline`/`setUserOffline`/`refreshHeartbeat`); `lastSeen` is stored as
the decimal string of a millisecond timestamp. -/
structure MetaHash where
  status : Option String := none
  lastSeen : Option String := none
  deviceId : Option String := none
  role : Option String := none
deriving Repr, DecidableEq

/-- Redis `HSET key field value` restricted to the four fields the code
writes; an unknown field leaves the hash unchanged. -/
def MetaHash.hsetField (m : MetaHash) (field value : String) : MetaHash :=
  if field = "status" then { m with status := some value }
  else if field = "lastSeen" then { m with lastSeen := some value }
  else if field = "deviceId" then { m with deviceId := some value }
  else if field = "role" then { m with role := some value }
  else m

/-- The Redis store state as the presence code observes it: string keys
(the `presence:user:*` indicators, valued `"1"`; we record only existence
and the remaining TTL in seconds) and hashes (the `presence:meta:*` maps).
A missing hash is `none`, matching node_redis `hgetall` returning `null`
for a nonexistent key. -/
structure Store where
  kv : String → Option Nat
  hashes : String → Option MetaHash

namespace Redis

/-- `SET key "1" "EX" ttl`: (re)creates the key with the given TTL. -/
def set (s : Store) (key : String) (ttl : Nat) : Store :=
  { s with kv := fun k => if k = key then some ttl else s.kv k }

/-- `DEL key`. -/
def del (s : Store) (key : String) : Store :=
  { s with kv := fun k => if k = key then none else s.kv k }

/-- `EXPIRE key ttl`: resets the TTL of an existing key; a no-op when the
key does not exist (Redis replies 0 and changes nothing). -/
def expire (s : Store) (key : String) (ttl : Nat) : Store :=
  { s with kv := fun k => if k = key then (s.kv key).map (fun _ => ttl) else s.kv k }

/-- `EXISTS key` (reply `1` iff the key exists). -/
def existsKey (s : Store) (key : String) : Bool :=
  (s.kv key).isSome

/-- `HSET key field value`: creates the hash when absent. -/
def hset (s : Store) (key field value : String) : Store :=
  { s with hashes := fun k =>
      if k = key then some (((s.hashes key).getD {}).hsetField field value)
      else s.hashes k }

/-- `HGETALL key` (`null` for a nonexistent key). -/
def hgetall (s : Store) (key : String) : Option MetaHash :=
  s.hashes key

end Redis

/-- A message published on a presence Pub/Sub channel, as built by
`publishPresenceChange` in `presence.ts`: `{type:"presence_update", userId,
status, timestamp, ...metadata}` (the `type` field is the same in every
message and is left implicit). -/
structure PresenceUpdate where
  userId : String
  status : String
  timestamp : Nat
  deviceId : Option String := none
  role : Option String := none
deriving Repr, DecidableEq

/-- One entry of the result list of `getBulkPresenceStatus`
(`IPresenceStatus` in `presence.ts`, with the `metadata` echo field). -/
structure PresenceStatus where
  userId : String
  status : String
  lastSeen : Nat
  deviceId : Option String := none
  metadata : Option MetaHash := none
deriving Repr, DecidableEq

/-- A command queued on the `MULTI` pipeline by `getBulkPresenceStatus`. -/
inductive StoreCmd where
  | existsCmd (key : String)
  | hgetallCmd (key : String)
deriving Repr, DecidableEq

/-- `PresenceManager.setUserOnline` (`presence.ts` 135-188) with the module
constants `PRESENCE_ENABLED`/`PRESENCE_TTL` passed as `enabled`/`ttl` and
`Date.now()` as `now`.  Returns the new store and the list of
(channel, message) publications.  The DynamoDB mirror is external and not
modelled. -/
def setUserOnline (enabled : Bool) (ttl : Nat) (s : Store) (now : Nat)
    (userId : String) (deviceId role : Option String) :
    Store × List (String × PresenceUpdate) :=
  if enabled = false then (s, [])
  else
    let presenceKey := Keys.forPresence userId
    let metaKey := Keys.forPresenceMeta userId
    let s1 := Redis.set s presenceKey ttl
    let s2 := Redis.hset s1 metaKey "status" "online"
    let s3 := Redis.hset s2 metaKey "lastSeen" (toString now)
    let s4 := match deviceId with
      | some d => Redis.hset s3 metaKey "deviceId" d
      | none => s3
    let s5 := match role with
      | some r => Redis.hset s4 metaKey "role" r
      | none => s4
    let update : PresenceUpdate :=
      { userId := userId, status := "online", timestamp := now
        deviceId := deviceId, role := role }
    (s5, [("presence:online", update), ("presence:updates", update)])

/-- `PresenceManager.refreshHeartbeat` (`presence.ts` 193-221): a `MULTI` of
`EXPIRE presence:user:{id} PRESENCE_TTL` and
`HSET presence:meta:{id} lastSeen now`; no publication on any channel. -/
def refreshHeartbeat (enabled : Bool) (ttl : Nat) (s : Store) (now : Nat)
    (userId : String) : Store × List (String × PresenceUpdate) :=
  if enabled = false then (s, [])
  else
    let s1 := Redis.expire s (Keys.forPresence userId) ttl
    let s2 := Redis.hset s1 (Keys.forPresenceMeta userId) "lastSeen" (toString now)
    (s2, [])

/-- `PresenceManager.setUserOffline` (`presence.ts` 226-269): a `MULTI` of
`DEL presence:user:{id}`, `HSET .. status offline`, `HSET .. lastSeen now`,
then publication on `presence:offline` and `presence:updates`. -/
def setUserOffline (enabled : Bool) (s : Store) (now : Nat) (userId : String) :
    Store × List (String × PresenceUpdate) :=
  if enabled = false then (s, [])
  else
    let s1 := Redis.del s (Keys.forPresence userId)
    let s2 := Redis.hset s1 (Keys.forPresenceMeta userId) "status" "offline"
    let s3 := Redis.hset s2 (Keys.forPresenceMeta userId) "lastSeen" (toString now)
    let update : PresenceUpdate :=
      { userId := userId, status := "offline", timestamp := now }
    (s3, [("presence:offline", update), ("presence:updates", update)])

/-- The per-user derivation inside the `multi.exec` callback of
`getBulkPresenceStatus` (`presence.ts` 333-364): `ex` is `replies[i] === 1`
(the `EXISTS` reply for this user) and `metadata` is
`replies[halfLength + i]` (the `HGETALL` reply for this user).
JavaScript truthiness of `metadata.lastSeen` (a string) is via
`jsTruthyStr`; `Number(metadata.lastSeen)` on the stored decimal timestamp
is `String.toNat?`. -/
def bulkEntry (ex : Bool) (metadata : Option MetaHash) (userId : String)
    (now : Nat) : PresenceStatus :=
  match metadata with
  | some m =>
    if ex then
      { userId := userId, status := "online"
        lastSeen := if jsTruthyStr m.lastSeen then (m.lastSeen.getD "").toNat?.getD 0 else now
        deviceId := m.deviceId, metadata := some m }
    else if jsTruthyStr m.lastSeen then
      { userId := userId, status := "offline"
        lastSeen := (m.lastSeen.getD "").toNat?.getD 0
        deviceId := m.deviceId, metadata := some m }
    else
      { userId := userId, status := "offline", lastSeen := 0 }
  | none =>
    { userId := userId, status := "offline", lastSeen := 0 }

/-- `PresenceManager.getBulkPresenceStatus` (`presence.ts` 300-371).
Returns the callback's user list together with the commands queued on the
`MULTI` pipeline (one `EXISTS` per user id, then one `HGETALL` per user id;
the early-return paths queue nothing).  The reply array of the pipeline is
`existsReplies ++ hgetallReplies`, so `replies[i]` and
`replies[halfLength+i]` of the source are the two per-user lookups mapped
below. -/
def getBulkPresenceStatus (enabled : Bool) (s : Store) (now : Nat)
    (userIds : List String) : List PresenceStatus × List StoreCmd :=
  if enabled = false then ([], [])
  else if userIds.length = 0 then ([], [])
  else
    let cmds :=
      userIds.map (fun u => StoreCmd.existsCmd (Keys.forPresence u)) ++
      userIds.map (fun u => StoreCmd.hgetallCmd (Keys.forPresenceMeta u))
    let users := userIds.map (fun userId =>
      bulkEntry (Redis.existsKey s (Keys.forPresence userId))
        (Redis.hgetall s (Keys.forPresenceMeta userId)) userId now)
    (users, cmds)

/-- The in-memory routing state of one `Server` instance that group fan-out
reads (`server.ts`): `clients` is the key set of `this.clients` (resident
Client ids) and `groups` is the Store's group-membership lookup
(`States.getUsersInsideGroup`), with `none` standing for the error /
non-array reply path. -/
structure RouterState where
  clients : List String
  groups : String → Option (List String)

/-- `Server.sendDataToUser` (`server.ts` 375-382): deliver to the resident
Client if any, else drop silently.  The result is the list of user ids the
data is delivered to. -/
def sendDataToUser (st : RouterState) (userId : String) : List String :=
  if st.clients.contains userId then [userId] else []

/-- `Server.sendDataFromUserToGroup` (`server.ts` 393-412): resolve the
group members; on error or an empty member list, deliver nothing; otherwise
deliver to each member, skipping the sender when `echo` is false. -/
def sendDataFromUserToGroup (st : RouterState) (userId groupId : String)
    (echo : Bool) : List String :=
  match st.groups groupId with
  | none => []
  | some userIds =>
    if userIds.length = 0 then []
    else userIds.flatMap (fun recipientId =>
      if !echo && recipientId == userId then []
      else sendDataToUser st recipientId)

/-- `Server.sendMessageToGroup` (`server.ts` 177-182): packs the message and
calls `sendDataFromUserToGroup` with the `echo` parameter left at its
default `false`. -/
def sendMessageToGroup (st : RouterState) (fromId toId : String) : List String :=
  sendDataFromUserToGroup st fromId toId false

/-- One entry of the `Server.webClients` array
(`this.webClients.push({ userId: id, socket, role })`). -/
structure WebClient where
  userId : String
  socket : Nat
  role : String
deriving Repr, DecidableEq

/-- The Server bookkeeping touched by client (un)registration: the key set
of `this.clients` and the `webClients` broadcast array. -/
structure ServerState where
  clients : List String
  webClients : List WebClient
deriving Repr, DecidableEq

/-- `Server.registerClient` (`server.ts` 271-307) restricted to the state
above: create the Client entry when absent; `role = user.role || "mobile"`;
a `web` or `dashboard` role is pushed onto `webClients` (a mobile role goes
through `setUserOnline` on the store side, modelled separately). -/
def registerClient (st : ServerState) (socket : Nat) (id : String)
    (userRole : Option String) : ServerState :=
  let st1 := { st with clients := if st.clients.contains id then st.clients
                                  else st.clients ++ [id] }
  let role := userRole.getD "mobile"
  if role = "web" ∨ role = "dashboard" then
    { st1 with webClients := st1.webClients ++ [⟨id, socket, role⟩] }
  else st1

/-- `Server.handleClientUnregister` (`server.ts` 188-238) restricted to the
state above: early return when the client id is unknown; a `mobile` role
goes through `setUserOffline` (store side, modelled separately); a `web`
role filters `webClients` by user id; any other role (including
`dashboard`) leaves `webClients` untouched; finally the client entry is
deleted. -/
def handleClientUnregister (st : ServerState) (clientId : String)
    (role : String) : ServerState :=
  if st.clients.contains clientId = false then st
  else
    let st1 :=
      if role = "mobile" then st
      else if role = "web" then
        { st with webClients := st.webClients.filter (fun wc => wc.userId != clientId) }
      else st
    { st1 with clients := st1.clients.filter (fun c => c != clientId) }

/-- `Server.broadcastPresenceUpdate` (`server.ts` 96-125) target selection:
the packed frame is written to every `webClients` entry whose socket is in
the OPEN ready state. -/
def broadcastTargets (st : ServerState) (openSockets : Nat → Bool) : List Nat :=
  (st.webClients.filter (fun wc => openSockets wc.socket)).map (fun wc => wc.socket)

/-- UTF-8 encoding of one character (what `Buffer.from(string)` produces
per code point). -/
def utf8EncodeCharNat (c : Char) : List Nat :=
  let n := c.toNat
  if n < 128 then [n]
  else if n < 2048 then [192 + n / 64, 128 + n % 64]
  else if n < 65536 then [224 + n / 4096, 128 + (n / 64) % 64, 128 + n % 64]
  else [240 + n / 262144, 128 + (n / 4096) % 64, 128 + (n / 64) % 64, 128 + n % 64]

/-- The byte sequence `Buffer.from(s)` (UTF-8 encoding of the string). -/
def utf8Bytes (s : String) : List Nat :=
  s.data.flatMap utf8EncodeCharNat

/-- The Connection state read and written by the ping handler
(`connection.ts`): the resolved `userId` (decoded in the constructor), the
socket ready state, and the `lastActivity` timestamp. -/
structure ConnState where
  userId : String
  readyStateOpen : Bool
  timestamp : Nat
deriving Repr, DecidableEq

/-- `Connection.handleSocketPing` (`connection.ts` 172-192): update the
activity timestamp; when the socket is OPEN, reply with a pong whose
payload is `Buffer.from(this.userId)` — the full UTF-8 encoding of the
resolved userId, with no truncation.  Returns the new state and the pong
payload sent, if any. -/
def handleSocketPing (c : ConnState) (now : Nat) : ConnState × Option (List Nat) :=
  let c1 := { c with timestamp := now }
  if c.readyStateOpen then (c1, some (utf8Bytes c.userId))
  else (c1, none)

/-- The value produced by the external `jwt.decode(token, secretKey)` call
of `jwt-simple` when it does not throw: the payload is either a bare
string, an object (its relevant claims given as string key/value pairs,
after JavaScript `String(...)` coercion), or a value of another type
(carried here as its `String(...)` coercion). -/
inductive Decoded where
  | str (s : String)
  | obj (claims : List (String × String))
  | other (s : String)
deriving Repr, DecidableEq

/-- The `trimQuotes` helper of `getUserFromToken`:
`val.replace(/^"+|"+$/g, "")` strips any leading and trailing `"`
characters. -/
def trimQuotes (val : String) : String :=
  String.mk (((val.data.dropWhile (fun c => c = '"')).reverse.dropWhile
    (fun c => c = '"')).reverse)

/-- The `claimsUserId` helper of `getUserFromToken`:
`val.uid || val.user_id || val.TELENET_userId || val.userId || val.sub ||
val.id`, then `null` when the chain result is still falsy. -/
def claimsUserId (claims : List (String × String)) : Option String :=
  let chain :=
    jsOr (claims.lookup "uid") (jsOr (claims.lookup "user_id")
      (jsOr (claims.lookup "TELENET_userId") (jsOr (claims.lookup "userId")
        (jsOr (claims.lookup "sub") (claims.lookup "id")))))
  match chain with
  | some s => if s = "" then none else some s
  | none => none

/-- `Server.getUserFromToken` of the extended Server source: resolves a
user id on every path and never rejects.  `extractedFromPayload` is the
result of the `fallbackDecodePayload` helper (an unverified base64url/JSON
decode of the token's payload segment; `none` when the token has no payload
segment or decoding fails).  `verifyResult` is the outcome of
`jwt.decode(token, config.secretKey)` with signature verification: `none`
when it throws (e.g. an invalid signature).  `useAuthentication` is the
config flag (`none` when the key is absent from the config object, in which
case `useAuthentication === false` is false and the verified branch is
taken). -/
def getUserFromToken (useAuthentication : Option Bool) (token : String)
    (extractedFromPayload : Option String) (verifyResult : Option Decoded) :
    String :=
  if jsTruthyStr extractedFromPayload then extractedFromPayload.getD ""
  else if useAuthentication = some false then token
  else
    match verifyResult with
    | some (Decoded.str s) => trimQuotes s
    | some (Decoded.obj claims) =>
      match claimsUserId claims with
      | some uid => uid
      | none =>
        if jsTruthyStr extractedFromPayload then extractedFromPayload.getD ""
        else token
    | some (Decoded.other s) => s
    | none =>
      if jsTruthyStr extractedFromPayload then extractedFromPayload.getD ""
      else token

/-- The outcome `verifyClient` hands to the `ws` library through the
`verified` callback. -/
inductive HandshakeResult where
  | accepted (uid : String) (code : Nat)
  | rejected (code : Nat) (msg : String)
deriving Repr, DecidableEq

/-- `Server.verifyClient` of the extended Server source: reject with 401
only when the token header is absent or empty; otherwise resolve the user
via `getUserFromToken` (which always resolves, so the promise's 401 catch
branch is unreachable) and accept with 200. -/
def verifyClient (useAuthentication : Option Bool) (token : Option String)
    (extractedFromPayload : Option String) (verifyResult : Option Decoded) :
    HandshakeResult :=
  if jsTruthyStr token = false then HandshakeResult.rejected 401 "Unauthorized"
  else HandshakeResult.accepted
    (getUserFromToken useAuthentication (token.getD "") extractedFromPayload
      verifyResult) 200

/-- `Server.handleWssConnection` of the extended Server source, reduced to
which user id (if any) gets a Client registered for the new socket: the
resolved uid is passed to `registerClient`; `none` only when the token is
absent or empty or the resolution promise rejects (which `getUserFromToken`
never does). -/
def handleWssConnection (useAuthentication : Option Bool)
    (token : Option String) (extractedFromPayload : Option String)
    (verifyResult : Option Decoded) : Option String :=
  if jsTruthyStr token = false then none
  else some (getUserFromToken useAuthentication (token.getD "")
    extractedFromPayload verifyResult)

/-- A JSON value, for the body of `POST /api/presence/status`. -/
inductive Json where
  | str (s : String)
  | num (n : Int)
  | bool (b : Bool)
  | null
  | arr (elems : List Json)
  | obj (fields : List (String × Json))
deriving Repr

/-- JavaScript property access `data.userIds` on a parsed JSON value
(`undefined`, i.e. `none`, on a non-object or a missing field; access on
`null` throws in JS, but that throw is caught by the same `catch` that
answers 400, so mapping it to `none` yields the same status code). -/
def Json.getField : Json → String → Option Json
  | Json.obj fields, name => fields.lookup name
  | _, _ => none

/-- `Array.isArray`. -/
def Json.isArr : Json → Bool
  | Json.arr _ => true
  | _ => false

/-- The body of a reply of the `POST /api/presence/status` handler. -/
inductive ApiBody where
  | err (msg : String)
  | success (users : List PresenceStatus) (timestamp : Nat)
deriving Repr, DecidableEq

/-- An HTTP reply of the `POST /api/presence/status` handler. -/
structure ApiResponse where
  status : Nat
  body : ApiBody
deriving Repr, DecidableEq

/-- Whether `Array.isArray(data.userIds)` holds for the parsed request
body. -/
def bodyHasArray (parsedBody : Option Json) : Bool :=
  match parsedBody with
  | some data =>
    match data.getField "userIds" with
    | some v => v.isArr
    | none => false
  | none => false

/-- The `POST /api/presence/status` branch of the entrypoint's
`http.createServer` handler: `parsedBody` is the outcome of
`JSON.parse(body)` (`none` when it throws), and `bulkResult` the outcome
the `getBulkPresenceStatus` callback receives (`Except.error` when the
store read fails).  400 on malformed JSON or a non-array `userIds`; 500 on
a store failure; otherwise 200 with `{success, users, timestamp}`. -/
def handlePresenceStatusPost (parsedBody : Option Json)
    (bulkResult : Except String (List PresenceStatus)) (now : Nat) :
    ApiResponse :=
  match parsedBody with
  | none => { status := 400, body := ApiBody.err "Invalid JSON" }
  | some data =>
    if bodyHasArray (some data) = false then
      { status := 400, body := ApiBody.err "userIds must be an array" }
    else
      match bulkResult with
      | Except.error _ =>
        { status := 500, body := ApiBody.err "Failed to get presence status" }
      | Except.ok users =>
        { status := 200, body := ApiBody.success users now }

/-- C9 counterexample: with the PRESENCE_TTL environment variable unset,
the configured presence TTL is not 120 seconds. -/
theorem C9_counterexample : PRESENCE_TTL none ≠ 120 := by decide

/-- C9 (amended): when the PRESENCE_TTL environment variable is unset, the
configured presence TTL applied to presence:user keys is 360 seconds. -/
theorem C9_presence_ttl_default : PRESENCE_TTL none = 360 := by decide

/-- C3: for every user id, refreshHeartbeat publishes nothing on any
presence channel, resets the TTL on the presence:user key to the configured
value exactly when the key still exists (an already-expired key is not
recreated), and updates the meta hash's lastSeen field to the current
timestamp. -/
theorem C3_refreshHeartbeat (ttl : Nat) (s : Store) (now : Nat) (u : String) :
    (refreshHeartbeat true ttl s now u).2 = [] ∧
    (refreshHeartbeat true ttl s now u).1.kv (Keys.forPresence u)
      = (s.kv (Keys.forPresence u)).map (fun _ => ttl) ∧
    ((refreshHeartbeat true ttl s now u).1.hashes (Keys.forPresenceMeta u)).bind
      MetaHash.lastSeen = some (toString now) := by
  refine ⟨rfl, ?_, ?_⟩
  · simp [refreshHeartbeat, Redis.expire, Redis.hset]
  · simp [refreshHeartbeat, Redis.expire, Redis.hset, MetaHash.hsetField]

/-- C4: executing setUserOffline twice in succession leaves the Store in
the same terminal state as executing it once, on the observables the claim
names: the presence:user key is absent and the meta status is "offline"
after one call and still after the second. -/
theorem C4_setUserOffline_idempotent (s : Store) (t1 t2 : Nat) (u : String) :
    (setUserOffline true s t1 u).1.kv (Keys.forPresence u) = none ∧
    ((setUserOffline true s t1 u).1.hashes (Keys.forPresenceMeta u)).bind
      MetaHash.status = some "offline" ∧
    (setUserOffline true (setUserOffline true s t1 u).1 t2 u).1.kv
      (Keys.forPresence u) = none ∧
    ((setUserOffline true (setUserOffline true s t1 u).1 t2 u).1.hashes
      (Keys.forPresenceMeta u)).bind MetaHash.status = some "offline" := by
  refine ⟨?_, ?_, ?_, ?_⟩ <;>
    simp [setUserOffline, Redis.del, Redis.hset, MetaHash.hsetField]

theorem bulkEntry_userId (ex : Bool) (md : Option MetaHash) (u : String)
    (now : Nat) : (bulkEntry ex md u now).userId = u := by
  cases md with
  | none => rfl
  | some m => cases ex <;> by_cases h : jsTruthyStr m.lastSeen <;> simp [bulkEntry, h]

theorem bulkEntry_status_online (ex : Bool) (md : Option MetaHash) (u : String)
    (now : Nat) :
    ((bulkEntry ex md u now).status = "online") ↔ (ex = true ∧ md.isSome = true) := by
  cases md with
  | none => simp [bulkEntry]
  | some m => cases ex <;> by_cases h : jsTruthyStr m.lastSeen <;> simp [bulkEntry, h]

theorem getBulk_users (s : Store) (now : Nat) (ids : List String) :
    (getBulkPresenceStatus true s now ids).1 = ids.map (fun u =>
      bulkEntry (Redis.existsKey s (Keys.forPresence u))
        (Redis.hgetall s (Keys.forPresenceMeta u)) u now) := by
  cases ids <;> simp [getBulkPresenceStatus]

/-- A Store state in which presence:user:u exists but presence:meta:u is
absent. -/
def presenceOnlyStore : Store :=
  { kv := fun k => if k = Keys.forPresence "u" then some 360 else none
    hashes := fun _ => none }

/-- C1 counterexample: in a Store where the key presence:user:u exists but
the presence:meta:u hash is absent, the bulk presence query reports the
user "offline", so online is not equivalent to key existence alone. -/
theorem C1_counterexample :
    Redis.existsKey presenceOnlyStore (Keys.forPresence "u") = true ∧
    ((getBulkPresenceStatus true presenceOnlyStore 0 ["u"]).1.getD 0
        { userId := "", status := "", lastSeen := 0 }).status = "offline" := by
  constructor
  · decide
  · decide

/-- C1 (amended): each entry returned by the bulk presence query has status
"online" if and only if the key presence:user:id exists in the Store AND
the presence:meta:id hash is present at the time of the check. -/
theorem C1_amended (s : Store) (now : Nat) (ids : List String) (i : Nat)
    (h : i < ids.length) :
    (((getBulkPresenceStatus true s now ids).1.getD i
        { userId := "", status := "", lastSeen := 0 }).status = "online") ↔
    (Redis.existsKey s (Keys.forPresence (ids.getD i "")) = true ∧
     (Redis.hgetall s (Keys.forPresenceMeta (ids.getD i ""))).isSome = true) := by
  have h2 : ids[i]? = some (ids.getD i "") := by
    rw [List.getD_eq_getElem?_getD, List.getElem?_eq_getElem h]
    rfl
  rw [getBulk_users, List.getD_eq_getElem?_getD, List.getElem?_map, h2]
  exact bulkEntry_status_online _ _ _ _

/-- C1 witness: the amended equivalence evaluated at the concrete store
with presence:user:u present and no meta hash. -/
theorem C1_witness :
    (((getBulkPresenceStatus true presenceOnlyStore 0 ["u"]).1.getD 0
        { userId := "", status := "", lastSeen := 0 }).status = "online") ↔
    (Redis.existsKey presenceOnlyStore
        (Keys.forPresence (["u"].getD 0 "")) = true ∧
     (Redis.hgetall presenceOnlyStore
        (Keys.forPresenceMeta (["u"].getD 0 ""))).isSome = true) :=
  C1_amended presenceOnlyStore 0 ["u"] 0 (by decide)

/-- C10: the bulk presence query returns exactly one entry per requested
id, in input order (the user ids of the result list are the input list);
on an empty input list, or when presence is disabled, it returns the empty
list and queues no Store command. -/
theorem C10_bulk_shape (enabled : Bool) (s : Store) (now : Nat)
    (ids : List String) :
    ((getBulkPresenceStatus true s now ids).1.map PresenceStatus.userId = ids) ∧
    (getBulkPresenceStatus enabled s now [] = ([], [])) ∧
    (getBulkPresenceStatus false s now ids = ([], [])) := by
  refine ⟨?_, ?_, ?_⟩
  · rw [getBulk_users]
    simp [Function.comp_def, bulkEntry_userId]
  · cases enabled <;> simp [getBulkPresenceStatus]
  · simp [getBulkPresenceStatus]

/-- C5: group fan-out with echo left false (as `sendMessageToGroup` calls
it) delivers exactly to the members of the group that have a resident
Client and are not the sender; in particular it never delivers to the
sender, whether or not the sender is a member. -/
theorem C5_fanout_exclusion (st : RouterState) (u g r : String) :
    r ∈ sendMessageToGroup st u g ↔
      (r ∈ (st.groups g).getD [] ∧ r ≠ u ∧ r ∈ st.clients) := by
  unfold sendMessageToGroup sendDataFromUserToGroup
  cases hg : st.groups g with
  | none => simp
  | some members =>
    by_cases hlen : members.length = 0
    · have hm : members = [] := List.length_eq_zero.mp hlen
      subst hm; simp
    · simp only [hlen, if_false, Option.getD_some]
      rw [List.mem_flatMap]
      constructor
      · rintro ⟨a, ha, hr⟩
        by_cases hau : a = u
        · simp [hau, sendDataToUser] at hr
        · simp only [Bool.not_false, Bool.true_and] at hr
          rw [if_neg (by simp [hau])] at hr
          simp only [sendDataToUser] at hr
          by_cases hc : st.clients.contains a
          · rw [if_pos hc] at hr
            simp at hr
            subst hr
            refine ⟨ha, hau, by simpa using hc⟩
          · rw [if_neg hc] at hr
            simp at hr
      · rintro ⟨hmem, hru, hrc⟩
        refine ⟨r, hmem, ?_⟩
        simp only [Bool.not_false, Bool.true_and]
        rw [if_neg (by simp [hru])]
        simp [sendDataToUser, hrc]

/-- C7 counterexample: a client registered with role "dashboard" is pushed
onto the dashboard broadcast set, but after its unregistration the entry is
still there — only role "web" is filtered out. -/
theorem C7_counterexample :
    (registerClient ⟨[], []⟩ 7 "u" (some "dashboard")).clients.contains "u" = true ∧
    (handleClientUnregister (registerClient ⟨[], []⟩ 7 "u" (some "dashboard"))
        "u" "dashboard").webClients = [⟨"u", 7, "dashboard"⟩] := by
  constructor
  · decide
  · decide

/-- C7 (amended): after a registered client unregisters, entries for its
user id are removed from the dashboard broadcast set when the role is
"web"; when the role is "dashboard" the broadcast set is left unchanged
(such an entry is only skipped at send time because its socket is no longer
OPEN). -/
theorem C7_amended (st : ServerState) (id : String)
    (h : st.clients.contains id = true) :
    (∀ wc ∈ (handleClientUnregister st id "web").webClients, wc.userId ≠ id) ∧
    (handleClientUnregister st id "dashboard").webClients = st.webClients := by
  have h2 : id ∈ st.clients := by simpa using h
  constructor
  · intro wc hwc
    simp only [handleClientUnregister, h] at hwc
    simp at hwc
    rcases hwc with ⟨hmem, hne⟩
    exact hne
  · simp [handleClientUnregister, h2]

/-- C7 witness: the amended statement at a concrete one-client state. -/
theorem C7_witness :
    (∀ wc ∈ (handleClientUnregister ⟨["a"], [⟨"a", 1, "web"⟩]⟩ "a"
        "web").webClients, wc.userId ≠ "a") ∧
    (handleClientUnregister ⟨["a"], [⟨"a", 1, "web"⟩]⟩ "a"
        "dashboard").webClients = [⟨"a", 1, "web"⟩] :=
  C7_amended ⟨["a"], [⟨"a", 1, "web"⟩]⟩ "a" (by decide)

/-- A 126-character user id (utf-8 length 126, above the 125-byte
control-frame payload limit). -/
def longUserId : String := String.mk (List.replicate 126 'a')

/-- C8 counterexample: on an inbound control-ping, the pong payload is the
full UTF-8 encoding of the resolved userId with no truncation — for a
126-character userId the payload is 126 bytes, above the 125-byte limit
the claim asserts. -/
theorem C8_counterexample :
    (((handleSocketPing ⟨longUserId, true, 0⟩ 5).2.getD []).length = 126) ∧
    ¬(126 ≤ 125) := by
  constructor
  · show (utf8Bytes longUserId).length = 126
    have henc : ∀ n : Nat, (utf8Bytes (String.mk (List.replicate n 'a'))).length = n := by
      intro n
      induction n with
      | zero => rfl
      | succ k ih =>
        show ((List.replicate (k + 1) 'a').flatMap utf8EncodeCharNat).length = k + 1
        rw [List.replicate_succ, List.flatMap_cons]
        simp [utf8EncodeCharNat, ih]
    exact henc 126
  · decide

/-- C8 (amended): on each inbound control-ping the Connection updates its
activity timestamp and, when the socket is OPEN, replies with a control-pong
whose payload is the resolved userId encoded as UTF-8 in full (no
truncation is applied); when the socket is not OPEN no pong is sent. -/
theorem C8_pong_payload (userId : String) (ts now : Nat) :
    handleSocketPing ⟨userId, true, ts⟩ now
      = (⟨userId, true, now⟩, some (utf8Bytes userId)) ∧
    handleSocketPing ⟨userId, false, ts⟩ now = (⟨userId, false, now⟩, none) := by
  constructor
  · rfl
  · rfl

/-- C2 counterexample: with authentication enabled, a token whose signature
verification fails (jwt.decode throws, `verifyResult = none`) and whose
payload is not even extractable (`extractedFromPayload = none`) is still
accepted: the handshake completes with code 200 using the raw token as the
user id, and a Client is registered for the socket — it is not rejected
with 401. -/
theorem C2_counterexample :
    verifyClient (some true) (some "opaquetoken") none none
      = HandshakeResult.accepted "opaquetoken" 200 ∧
    handleWssConnection (some true) (some "opaquetoken") none none
      = some "opaquetoken" := by
  constructor
  · rfl
  · rfl

/-- C2 (amended): whenever authentication is enabled and verification of
the presented token's signature fails, the handshake is nevertheless
accepted with code 200: the resolver falls back to the unverified payload
extraction when it yielded a user id, and to the raw token otherwise, and a
Client is registered for that socket under that id.  The handshake is
rejected with 401 only when the token is absent or empty. -/
theorem C2_verification_failure_accepted (token extracted : Option String)
    (h : jsTruthyStr token = true) :
    verifyClient (some true) token extracted none
      = HandshakeResult.accepted
          (if jsTruthyStr extracted then extracted.getD "" else token.getD "")
          200 ∧
    handleWssConnection (some true) token extracted none
      = some (if jsTruthyStr extracted then extracted.getD ""
              else token.getD "") := by
  have hres : getUserFromToken (some true) (token.getD "") extracted none
      = (if jsTruthyStr extracted then extracted.getD "" else token.getD "") := by
    by_cases he : jsTruthyStr extracted
    · simp [getUserFromToken, he]
    · simp [getUserFromToken, he]
  constructor
  · simp [verifyClient, h, hres]
  · simp [handleWssConnection, h, hres]

/-- C2 witness: the amended statement at a concrete token whose signature
fails to verify but whose payload decodes to a user id. -/
theorem C2_witness :
    verifyClient (some true) (some "h.p.s") (some "payloaduid") none
      = HandshakeResult.accepted
          (if jsTruthyStr (some "payloaduid") then (some "payloaduid").getD ""
           else (some "h.p.s").getD "") 200 ∧
    handleWssConnection (some true) (some "h.p.s") (some "payloaduid") none
      = some (if jsTruthyStr (some "payloaduid") then (some "payloaduid").getD ""
              else (some "h.p.s").getD "") :=
  C2_verification_failure_accepted (some "h.p.s") (some "payloaduid") (by decide)

/-- C6: the POST /api/presence/status handler replies 400 when the body is
not valid JSON or its userIds field is not an array, 500 when the store
read fails, and otherwise 200 with a success body carrying the user list
and a timestamp. -/
theorem C6_presence_status_endpoint (j : Json) (parsed : Option Json)
    (bulk : Except String (List PresenceStatus)) (now : Nat)
    (us : List PresenceStatus) (e : String) :
    ((handlePresenceStatusPost none bulk now).status = 400) ∧
    (bodyHasArray (some j) = false →
      (handlePresenceStatusPost (some j) bulk now).status = 400) ∧
    (bodyHasArray parsed = true →
      (handlePresenceStatusPost parsed (Except.error e) now).status = 500) ∧
    (bodyHasArray parsed = true →
      handlePresenceStatusPost parsed (Except.ok us) now
        = { status := 200, body := ApiBody.success us now }) := by
  refine ⟨rfl, ?_, ?_, ?_⟩
  · intro hna
    simp [handlePresenceStatusPost, hna]
  · intro ha
    cases parsed with
    | none => simp [bodyHasArray] at ha
    | some data => simp [handlePresenceStatusPost, ha]
  · intro ha
    cases parsed with
    | none => simp [bodyHasArray] at ha
    | some data => simp [handlePresenceStatusPost, ha]

/-- A parsed request body whose userIds field is an array. -/
def arrayBody : Json := Json.obj [("userIds", Json.arr [])]

/-- C6 witness: the endpoint behaviour at concrete inputs — malformed JSON,
a non-array userIds field, a store failure, and a successful read. -/
theorem C6_witness :
    ((handlePresenceStatusPost none (Except.ok []) 0).status = 400) ∧
    ((handlePresenceStatusPost (some Json.null) (Except.ok []) 0).status = 400) ∧
    ((handlePresenceStatusPost (some arrayBody) (Except.error "storefail")
        0).status = 500) ∧
    (handlePresenceStatusPost (some arrayBody) (Except.ok []) 0
      = { status := 200, body := ApiBody.success [] 0 }) := by
  have h := C6_presence_status_endpoint Json.null (some arrayBody)
    (Except.ok []) 0 [] "storefail"
  exact ⟨h.1, h.2.1 rfl, h.2.2.1 rfl, h.2.2.2 rfl⟩
